import Mathlib

/-!
Verification of the transaction gateway of the admin-dashboard repository
(src/app/api/transactions/route.ts): shallow embedding of the GET / POST /
DELETE handlers over a model of JavaScript values and the Supabase store,
with theorems settling the behavioural claims of the specification.
-/

namespace AdminDashboard

/-- A JavaScript value as it can appear in a request-body field: null,
string, number (amounts are integral monetary quantities) or boolean. -/
inductive JSVal where
  | null
  | str (s : String)
  | num (n : Int)
  | boolean (b : Bool)
deriving DecidableEq, Repr

/-- JavaScript truthiness of `body[field]`: an absent key (`none`,
i.e. `undefined`), `null`, the empty string, `0` and `false` are falsy. -/
def truthy : Option JSVal → Bool
  | none => false
  | some JSVal.null => false
  | some (JSVal.str s) => s != ""
  | some (JSVal.num n) => n != 0
  | some (JSVal.boolean b) => b

/-- The JSON body of a POST /transactions request; `none` models an
absent key. -/
structure PostBody where
  anggota_id : Option JSVal
  tipe_transaksi : Option JSVal
  source_type : Option JSVal
  jumlah : Option JSVal
  deskripsi : Option JSVal
  jenis_tabungan_id : Option JSVal
  pembiayaan_id : Option JSVal
  pinjaman_id : Option JSVal
deriving DecidableEq, Repr

/-- Dynamic field access `body[field]` as used by the validation loop. -/
def getField (b : PostBody) : String → Option JSVal
  | "anggota_id" => b.anggota_id
  | "tipe_transaksi" => b.tipe_transaksi
  | "source_type" => b.source_type
  | "jumlah" => b.jumlah
  | "deskripsi" => b.deskripsi
  | "jenis_tabungan_id" => b.jenis_tabungan_id
  | "pembiayaan_id" => b.pembiayaan_id
  | "pinjaman_id" => b.pinjaman_id
  | _ => none

/-- The `requiredFields` array of the POST handler (route.ts lines 158-163). -/
def requiredFields : List String :=
  ["anggota_id", "tipe_transaksi", "source_type", "jumlah"]

/-- The validation loop of route.ts lines 164-171: the first required field
whose value is falsy, if any. -/
def firstMissing (b : PostBody) : Option String :=
  requiredFields.find? (fun f => !truthy (getField b f))

/-- The named arguments the POST handler passes to the `add_transaction`
RPC (route.ts lines 184-194). -/
structure AddTxArgs where
  p_anggota_id : Option JSVal
  p_tipe_transaksi : Option JSVal
  p_source_type : Option JSVal
  p_jumlah : Option JSVal
  p_deskripsi : Option JSVal
  p_jenis_tabungan_id : Option JSVal
  p_pembiayaan_id : Option JSVal
deriving DecidableEq, Repr

/-- `v || null`: the JavaScript fallback to `null` used for the optional
arguments (route.ts lines 189-190). -/
def jsOrNull (v : Option JSVal) : Option JSVal :=
  if truthy v then v else some JSVal.null

/-- `body.pembiayaan_id || body.pinjaman_id || null` (route.ts lines
192-193): the backward-compatible loan-reference resolution. -/
def resolveLoanRef (pembiayaan pinjaman : Option JSVal) : Option JSVal :=
  if truthy pembiayaan then pembiayaan
  else if truthy pinjaman then pinjaman
  else some JSVal.null

/-- The structured result object the `add_transaction` RPC returns in its
`data` slot: `{success, transaction_id?, error?}`. -/
structure AddTxData where
  success : Bool
  transaction_id : Option String
  error : Option String
deriving DecidableEq, Repr

/-- Outcome of the `add_transaction` RPC call: either a call-level error
object (the `error` slot) or a structured data object. -/
inductive RpcOutcome where
  | rpcError (message : String)
  | rpcData (d : AddTxData)
deriving DecidableEq, Repr

/-- JSON bodies produced by the handlers. -/
inductive RespBody where
  | errObj (error : Option String)
  | errDetail (error : String) (details hint code : Option String)
  | created (message : String) (id : Option String)
  | deleted (message : String)
deriving DecidableEq, Repr

/-- An HTTP response: status code and JSON body. -/
structure HttpResponse where
  status : Nat
  body : RespBody
deriving DecidableEq, Repr

/-- The argument record the POST handler builds for the `add_transaction`
RPC once validation has passed (route.ts lines 184-194). -/
def mkArgs (body : PostBody) : AddTxArgs :=
  { p_anggota_id := body.anggota_id
    p_tipe_transaksi := body.tipe_transaksi
    p_source_type := body.source_type
    p_jumlah := body.jumlah
    p_deskripsi := jsOrNull body.deskripsi
    p_jenis_tabungan_id := jsOrNull body.jenis_tabungan_id
    p_pembiayaan_id := resolveLoanRef body.pembiayaan_id body.pinjaman_id }

/-- The POST /transactions handler (route.ts lines 152-228), with the store
abstracted as a function from RPC arguments to an RPC outcome. Returns the
HTTP response together with the RPC call the handler issued (`none` when
validation rejected the request before any store call). -/
def POST (body : PostBody) (store : AddTxArgs → RpcOutcome) :
    HttpResponse × Option AddTxArgs :=
  match firstMissing body with
  | some field =>
      (⟨400, RespBody.errObj (some ("Field \x27" ++ field ++ "\x27 is required"))⟩, none)
  | none =>
      if body.source_type = some (JSVal.str "tabungan") ∧ truthy body.jenis_tabungan_id = false then
        (⟨400, RespBody.errObj
            (some "Jenis tabungan harus dipilih untuk setoran atau penarikan")⟩, none)
      else
        match store (mkArgs body) with
        | RpcOutcome.rpcError msg =>
            (⟨500, RespBody.errObj (some ("Failed to create transaction: " ++ msg))⟩,
             some (mkArgs body))
        | RpcOutcome.rpcData d =>
            if d.success = false then
              (⟨400, RespBody.errObj d.error⟩, some (mkArgs body))
            else
              (⟨200, RespBody.created "Transaction created successfully" d.transaction_id⟩,
               some (mkArgs body))

/-- A flat row of the `get_all_transactions` RPC result (route.ts lines
55-77); `none` models a SQL NULL. -/
structure TransactionRPCResult where
  id : String
  anggota_id : String
  tipe_transaksi : String
  source_type : Option String
  deskripsi : Option String
  jumlah : Int
  sebelum : Int
  sesudah : Int
  pembiayaan_id : Option String
  tabungan_id : Option String
  created_at : String
  updated_at : String
  anggota_nama : Option String
  anggota_nomor_rekening : Option String
  tabungan_saldo : Option Int
  tabungan_jenis_id : Option String
  tabungan_jenis_nama : Option String
  tabungan_jenis_kode : Option String
  pembiayaan_jumlah : Option Int
  pembiayaan_sisa : Option Int
  pembiayaan_jenis : Option String
deriving DecidableEq, Repr

/-- The `anggota` sub-object of a normalized entry. -/
structure AnggotaView where
  nama : String
  nomor_rekening : Option String
deriving DecidableEq, Repr

/-- The `jenis_tabungan` sub-object nested inside `tabungan`. -/
structure JenisTabunganView where
  nama : String
  kode : Option String
deriving DecidableEq, Repr

/-- The `tabungan` sub-object of a normalized entry. -/
structure TabunganView where
  saldo : Option Int
  jenis_tabungan_id : Option String
  jenis_tabungan : Option JenisTabunganView
deriving DecidableEq, Repr

/-- The `pinjaman` sub-object of a normalized entry (mapped from the
`pembiayaan_*` columns). -/
structure PinjamanView where
  id : Option String
  jumlah : Int
  sisa_pembayaran : Option Int
  jenis_pinjaman : Option String
deriving DecidableEq, Repr

/-- A normalized transaction entry as the GET handler returns it. -/
structure TransaksiView where
  id : String
  anggota_id : String
  tipe_transaksi : String
  source_type : Option String
  deskripsi : Option String
  jumlah : Int
  sebelum : Int
  sesudah : Int
  pembiayaan_id : Option String
  tabungan_id : Option String
  created_at : String
  updated_at : String
  anggota : Option AnggotaView
  tabungan : Option TabunganView
  pinjaman : Option PinjamanView
deriving DecidableEq, Repr

/-- The per-row transformation of the GET handler (route.ts lines 81-135):
sign of `jumlah` recomputed from `tipe_transaksi`, nested sub-objects
synthesized only when the keying field is truthy, `null` otherwise. -/
def transformTransaction (item : TransactionRPCResult) : TransaksiView :=
  { id := item.id
    anggota_id := item.anggota_id
    tipe_transaksi := item.tipe_transaksi
    source_type := item.source_type
    deskripsi := item.deskripsi
    jumlah :=
      if item.tipe_transaksi = "masuk" then |item.jumlah| else -|item.jumlah|
    sebelum := item.sebelum
    sesudah := item.sesudah
    pembiayaan_id := item.pembiayaan_id
    tabungan_id := item.tabungan_id
    created_at := item.created_at
    updated_at := item.updated_at
    anggota :=
      match item.anggota_nama with
      | some nama =>
          if nama ≠ "" then
            some { nama := nama, nomor_rekening := item.anggota_nomor_rekening }
          else none
      | none => none
    tabungan :=
      match item.tabungan_id with
      | some tid =>
          if tid ≠ "" then
            some { saldo := item.tabungan_saldo
                   jenis_tabungan_id := item.tabungan_jenis_id
                   jenis_tabungan :=
                     match item.tabungan_jenis_nama with
                     | some jnama =>
                         if jnama ≠ "" then
                           some { nama := jnama, kode := item.tabungan_jenis_kode }
                         else none
                     | none => none }
          else none
      | none => none
    pinjaman :=
      match item.pembiayaan_jumlah with
      | some pj =>
          if pj ≠ 0 then
            some { id := item.pembiayaan_id
                   jumlah := pj
                   sisa_pembayaran := item.pembiayaan_sisa
                   jenis_pinjaman := item.pembiayaan_jenis }
          else none
      | none => none }

/-- Response of the GET handler: the normalized list, or a store error. -/
inductive GetResponse where
  | ok (status : Nat) (rows : List TransaksiView)
  | failure (status : Nat) (error : String)
deriving DecidableEq, Repr

/-- The GET /transactions handler (route.ts lines 35-150), with the store
read abstracted as an `Except`: error → 500 with the store message,
data → 200 with every row normalized. -/
def GET (store : Except String (List TransactionRPCResult)) : GetResponse :=
  match store with
  | Except.error msg => GetResponse.failure 500 msg
  | Except.ok data => GetResponse.ok 200 (data.map transformTransaction)

/-- A store-level error as PostgREST reports it for a table operation. -/
structure StoreError where
  message : String
  details : Option String
  hint : Option String
  code : Option String
deriving DecidableEq, Repr

/-- The store as seen by the DELETE handler: the ids of the rows of the
`transaksi` table, the message `.single()` produces when the requested row
is absent, and whether the subsequent table delete fails. -/
structure DeleteStore where
  rows : List String
  fetchErrMsg : String
  deleteErr : Option StoreError
deriving DecidableEq, Repr

/-- The existence check of route.ts lines 260-267: `.eq("id", tid).single()`
errors when no row matches, otherwise returns the row. -/
def singleFetch (s : DeleteStore) (tid : String) : Except String (Option Unit) :=
  if tid ∈ s.rows then Except.ok (some ()) else Except.error s.fetchErrMsg

/-- Everything observable about one DELETE request: the HTTP response, the
rows of the ledger table afterwards, and which store operations were issued. -/
structure DeleteOutcome where
  response : HttpResponse
  rows : List String
  fetchIssued : Bool
  deleteIssued : Bool
deriving DecidableEq, Repr

/-- The DELETE /transactions handler (route.ts lines 230-332): missing id →
400 before any store access; fetch error → 404; fetched row absent → 404;
table-delete error → 500 with diagnostics; otherwise the row is removed
and the handler reports success. -/
def DELETE (idParam : Option String) (store : DeleteStore) : DeleteOutcome :=
  match idParam with
  | none =>
      ⟨⟨400, RespBody.errObj (some "Transaction ID is required")⟩, store.rows, false, false⟩
  | some tid =>
      match singleFetch store tid with
      | Except.error msg =>
          ⟨⟨404, RespBody.errObj (some ("Transaction not found: " ++ msg))⟩,
           store.rows, true, false⟩
      | Except.ok none =>
          ⟨⟨404, RespBody.errObj (some "Transaction not found")⟩, store.rows, true, false⟩
      | Except.ok (some _) =>
          match store.deleteErr with
          | some e =>
              ⟨⟨500, RespBody.errDetail ("Failed to delete transaction: " ++ e.message)
                  e.details e.hint e.code⟩, store.rows, true, true⟩
          | none =>
              ⟨⟨200, RespBody.deleted "Transaction deleted successfully"⟩,
               store.rows.filter (fun r => r != tid), true, true⟩

lemma mem_requiredFields (f : String) (h : f ∈ requiredFields) :
    f = "anggota_id" ∨ f = "tipe_transaksi" ∨ f = "source_type" ∨ f = "jumlah" := by
  simpa [requiredFields] using h

lemma firstMissing_eq_some (body : PostBody) (f : String)
    (h1 : f ∈ requiredFields)
    (hf : truthy (getField body f) = false)
    (ho : ∀ g ∈ requiredFields, g ≠ f → truthy (getField body g) = true) :
    firstMissing body = some f := by
  rcases mem_requiredFields f h1 with rfl | rfl | rfl | rfl
  · simp [firstMissing, requiredFields, List.find?, hf]
  · have ha := ho "anggota_id" (by simp [requiredFields]) (by decide)
    simp [firstMissing, requiredFields, List.find?, hf, ha]
  · have ha := ho "anggota_id" (by simp [requiredFields]) (by decide)
    have ht := ho "tipe_transaksi" (by simp [requiredFields]) (by decide)
    simp [firstMissing, requiredFields, List.find?, hf, ha, ht]
  · have ha := ho "anggota_id" (by simp [requiredFields]) (by decide)
    have ht := ho "tipe_transaksi" (by simp [requiredFields]) (by decide)
    have hs := ho "source_type" (by simp [requiredFields]) (by decide)
    simp [firstMissing, requiredFields, List.find?, hf, ha, ht, hs]

lemma firstMissing_eq_none (body : PostBody)
    (h : ∀ g ∈ requiredFields, truthy (getField body g) = true) :
    firstMissing body = none := by
  have ha := h "anggota_id" (by simp [requiredFields])
  have ht := h "tipe_transaksi" (by simp [requiredFields])
  have hs := h "source_type" (by simp [requiredFields])
  have hj := h "jumlah" (by simp [requiredFields])
  simp [firstMissing, requiredFields, List.find?, ha, ht, hs, hj]

lemma POST_reject_of_firstMissing (body : PostBody) (store : AddTxArgs → RpcOutcome)
    (f : String) (h : firstMissing body = some f) :
    POST body store =
      (⟨400, RespBody.errObj (some ("Field \x27" ++ f ++ "\x27 is required"))⟩, none) := by
  simp [POST, h]

lemma POST_valid_eq (body : PostBody) (store : AddTxArgs → RpcOutcome)
    (hfm : firstMissing body = none)
    (hcond : ¬(body.source_type = some (JSVal.str "tabungan") ∧
        truthy body.jenis_tabungan_id = false)) :
    POST body store =
      match store (mkArgs body) with
      | RpcOutcome.rpcError msg =>
          (⟨500, RespBody.errObj (some ("Failed to create transaction: " ++ msg))⟩,
           some (mkArgs body))
      | RpcOutcome.rpcData d =>
          if d.success = false then
            (⟨400, RespBody.errObj d.error⟩, some (mkArgs body))
          else
            (⟨200, RespBody.created "Transaction created successfully" d.transaction_id⟩,
             some (mkArgs body)) := by
  simp [POST, hfm, hcond]

/-- Claim C3: a POST body omitting one of the four required fields
(`anggota_id`, `tipe_transaksi`, `source_type`, `jumlah`), the other three
being present and truthy, is answered with status 400 and an error message
naming the omitted field, and no store call is made. -/
theorem post_missing_required_field_400 (body : PostBody)
    (store : AddTxArgs → RpcOutcome) (f : String)
    (h1 : f ∈ requiredFields)
    (h2 : getField body f = none)
    (h3 : ∀ g ∈ requiredFields, g ≠ f → truthy (getField body g) = true) :
    (POST body store).fst.status = 400 ∧
    (POST body store).fst.body =
      RespBody.errObj (some ("Field \x27" ++ f ++ "\x27 is required")) ∧
    (POST body store).snd = none := by
  have hf : truthy (getField body f) = false := by rw [h2]; rfl
  rw [POST_reject_of_firstMissing body store f (firstMissing_eq_some body f h1 hf h3)]
  exact ⟨rfl, rfl, rfl⟩

def w3body : PostBody :=
  { anggota_id := none
    tipe_transaksi := some (JSVal.str "masuk")
    source_type := some (JSVal.str "tabungan")
    jumlah := some (JSVal.num 1000)
    deskripsi := none
    jenis_tabungan_id := none
    pembiayaan_id := none
    pinjaman_id := none }

def w3store : AddTxArgs → RpcOutcome :=
  fun _ => RpcOutcome.rpcData ⟨true, some "t1", none⟩

/-- Witness for claim C3 at a concrete body missing only `anggota_id`. -/
theorem post_missing_required_field_400_witness :
    (POST w3body w3store).fst.status = 400 ∧
    (POST w3body w3store).fst.body =
      RespBody.errObj (some ("Field \x27" ++ "anggota_id" ++ "\x27 is required")) ∧
    (POST w3body w3store).snd = none :=
  post_missing_required_field_400 w3body w3store "anggota_id"
    (by decide) rfl (by decide)

/-- Claim C9: a POST body in which one required field is present but falsy
(`jumlah = 0`, or an empty string for one of the string fields), the other
three required fields being truthy, is rejected exactly as if the field
were missing: status 400 naming that field, and no store call is made. -/
theorem post_falsy_required_field_400 (body : PostBody)
    (store : AddTxArgs → RpcOutcome) (f : String) (v : JSVal)
    (h1 : f ∈ requiredFields)
    (h2 : getField body f = some v)
    (h3 : truthy (some v) = false)
    (h4 : ∀ g ∈ requiredFields, g ≠ f → truthy (getField body g) = true) :
    (POST body store).fst.status = 400 ∧
    (POST body store).fst.body =
      RespBody.errObj (some ("Field \x27" ++ f ++ "\x27 is required")) ∧
    (POST body store).snd = none := by
  have hf : truthy (getField body f) = false := by rw [h2]; exact h3
  rw [POST_reject_of_firstMissing body store f (firstMissing_eq_some body f h1 hf h4)]
  exact ⟨rfl, rfl, rfl⟩

def w9body : PostBody :=
  { anggota_id := some (JSVal.str "A1")
    tipe_transaksi := some (JSVal.str "masuk")
    source_type := some (JSVal.str "pembiayaan")
    jumlah := some (JSVal.num 0)
    deskripsi := none
    jenis_tabungan_id := none
    pembiayaan_id := none
    pinjaman_id := none }

def w9store : AddTxArgs → RpcOutcome :=
  fun _ => RpcOutcome.rpcData ⟨true, some "t2", none⟩

/-- Witness for claim C9 at a concrete body carrying `jumlah = 0`: the
zero-amount request is rejected with 400 naming `jumlah` and never
reaches the store. -/
theorem post_falsy_required_field_400_witness :
    (POST w9body w9store).fst.status = 400 ∧
    (POST w9body w9store).fst.body =
      RespBody.errObj (some ("Field \x27" ++ "jumlah" ++ "\x27 is required")) ∧
    (POST w9body w9store).snd = none :=
  post_falsy_required_field_400 w9body w9store "jumlah" (JSVal.num 0)
    (by decide) rfl rfl (by decide)

/-- Claim C4: a POST body whose required fields are all truthy, whose
`source_type` is `"tabungan"` and which carries no `jenis_tabungan_id`,
is answered with status 400 and the Indonesian domain-error message, and
no store call is made. -/
theorem post_tabungan_without_jenis_400 (body : PostBody)
    (store : AddTxArgs → RpcOutcome)
    (hreq : ∀ g ∈ requiredFields, truthy (getField body g) = true)
    (hsrc : body.source_type = some (JSVal.str "tabungan"))
    (hjen : body.jenis_tabungan_id = none) :
    (POST body store).fst.status = 400 ∧
    (POST body store).fst.body =
      RespBody.errObj (some "Jenis tabungan harus dipilih untuk setoran atau penarikan") ∧
    (POST body store).snd = none := by
  have hfm := firstMissing_eq_none body hreq
  simp [POST, hfm, hsrc, hjen, truthy]

def w4body : PostBody :=
  { anggota_id := some (JSVal.str "A1")
    tipe_transaksi := some (JSVal.str "masuk")
    source_type := some (JSVal.str "tabungan")
    jumlah := some (JSVal.num 2500)
    deskripsi := some (JSVal.str "setoran")
    jenis_tabungan_id := none
    pembiayaan_id := none
    pinjaman_id := none }

def w4store : AddTxArgs → RpcOutcome :=
  fun _ => RpcOutcome.rpcData ⟨true, some "t3", none⟩

/-- Witness for claim C4 at a concrete savings deposit without a savings
type. -/
theorem post_tabungan_without_jenis_400_witness :
    (POST w4body w4store).fst.status = 400 ∧
    (POST w4body w4store).fst.body =
      RespBody.errObj (some "Jenis tabungan harus dipilih untuk setoran atau penarikan") ∧
    (POST w4body w4store).snd = none :=
  post_tabungan_without_jenis_400 w4body w4store (by decide) rfl rfl

/-- Claim C7: a DELETE request with no `id` query parameter is answered
with status 400 and an error body before any store access: no existence
check and no delete operation is issued, and the ledger rows are
unchanged. -/
theorem delete_missing_id_400 (store : DeleteStore) :
    DELETE none store =
      ⟨⟨400, RespBody.errObj (some "Transaction ID is required")⟩,
       store.rows, false, false⟩ :=
  rfl

/-- Claim C1: every transaction row returned by the GET list operation has
its normalized `jumlah` equal to `+|jumlah|` when the row direction is
`"masuk"` and `-|jumlah|` when it is `"keluar"`, regardless of the sign of
the `jumlah` value the store returned. -/
theorem listed_amount_sign_recomputed_from_direction
    (data : List TransactionRPCResult) (item : TransactionRPCResult)
    (h : item ∈ data) :
    GET (Except.ok data) = GetResponse.ok 200 (data.map transformTransaction) ∧
    transformTransaction item ∈ data.map transformTransaction ∧
    (item.tipe_transaksi = "masuk" → (transformTransaction item).jumlah = |item.jumlah|) ∧
    (item.tipe_transaksi = "keluar" → (transformTransaction item).jumlah = -|item.jumlah|) := by
  refine ⟨rfl, List.mem_map_of_mem _ h, ?_, ?_⟩
  · intro hm
    simp [transformTransaction, hm]
  · intro hk
    simp [transformTransaction, hk]

def w1item : TransactionRPCResult :=
  { id := "t1"
    anggota_id := "a1"
    tipe_transaksi := "masuk"
    source_type := some "tabungan"
    deskripsi := none
    jumlah := -500
    sebelum := 0
    sesudah := 500
    pembiayaan_id := none
    tabungan_id := some "tb1"
    created_at := "2024-01-01"
    updated_at := "2024-01-01"
    anggota_nama := some "Budi"
    anggota_nomor_rekening := some "001"
    tabungan_saldo := some 500
    tabungan_jenis_id := some "j1"
    tabungan_jenis_nama := some "Tabungan Wajib"
    tabungan_jenis_kode := some "TW"
    pembiayaan_jumlah := none
    pembiayaan_sisa := none
    pembiayaan_jenis := none }

/-- Witness for claim C1: a `"masuk"` row the store returned with a
negative stored amount is listed with the positive absolute value. -/
theorem listed_amount_sign_recomputed_from_direction_witness :
    (transformTransaction w1item).jumlah = |w1item.jumlah| :=
  (listed_amount_sign_recomputed_from_direction [w1item] w1item
    (List.mem_singleton.mpr rfl)).2.2.1 rfl

/-- Claim C6: a DELETE request whose id matches no row of the ledger table
fails the existence check with status 404 and an error body, no delete
operation is issued, and the ledger rows are unchanged. -/
theorem delete_unknown_id_404_no_delete (store : DeleteStore) (tid : String)
    (h : tid ∉ store.rows) :
    (DELETE (some tid) store).response.status = 404 ∧
    (DELETE (some tid) store).response.body =
      RespBody.errObj (some ("Transaction not found: " ++ store.fetchErrMsg)) ∧
    (DELETE (some tid) store).deleteIssued = false ∧
    (DELETE (some tid) store).rows = store.rows := by
  simp [DELETE, singleFetch, h]

def w6store : DeleteStore :=
  { rows := ["t1", "t2"]
    fetchErrMsg := "JSON object requested, multiple (or no) rows returned"
    deleteErr := none }

/-- Witness for claim C6 at a concrete two-row ledger and an unknown id. -/
theorem delete_unknown_id_404_no_delete_witness :
    (DELETE (some "zzz") w6store).response.status = 404 ∧
    (DELETE (some "zzz") w6store).response.body =
      RespBody.errObj (some ("Transaction not found: " ++ w6store.fetchErrMsg)) ∧
    (DELETE (some "zzz") w6store).deleteIssued = false ∧
    (DELETE (some "zzz") w6store).rows = w6store.rows :=
  delete_unknown_id_404_no_delete w6store "zzz" (by decide)

/-- Claim C8: absence of related context serializes as a null reference:
the `anggota` sub-object is `none` whenever no member name is present
(NULL or blank), and the `pinjaman` sub-object is `none` for a transaction
with no linked loan (NULL `pembiayaan_id` and NULL joined loan amount). -/
theorem normalized_absent_context_null (item : TransactionRPCResult) :
    (item.anggota_nama = none → (transformTransaction item).anggota = none) ∧
    (item.anggota_nama = some "" → (transformTransaction item).anggota = none) ∧
    (item.pembiayaan_id = none → item.pembiayaan_jumlah = none →
      (transformTransaction item).pinjaman = none) := by
  refine ⟨?_, ?_, ?_⟩
  · intro h
    simp [transformTransaction, h]
  · intro h
    simp [transformTransaction, h]
  · intro _ h2
    simp [transformTransaction, h2]

def w8item : TransactionRPCResult :=
  { id := "t4"
    anggota_id := "a2"
    tipe_transaksi := "keluar"
    source_type := some "tabungan"
    deskripsi := none
    jumlah := 200
    sebelum := 500
    sesudah := 300
    pembiayaan_id := none
    tabungan_id := some "tb2"
    created_at := "2024-02-02"
    updated_at := "2024-02-02"
    anggota_nama := none
    anggota_nomor_rekening := none
    tabungan_saldo := some 300
    tabungan_jenis_id := some "j1"
    tabungan_jenis_nama := none
    tabungan_jenis_kode := none
    pembiayaan_jumlah := none
    pembiayaan_sisa := none
    pembiayaan_jenis := none }

/-- Witness for claim C8 at a concrete row with no member name and no
linked loan. -/
theorem normalized_absent_context_null_witness :
    (transformTransaction w8item).anggota = none ∧
    (transformTransaction w8item).pinjaman = none :=
  ⟨(normalized_absent_context_null w8item).1 rfl,
   (normalized_absent_context_null w8item).2.2 rfl rfl⟩

/-- Claim C10: the normalizer keys the `pinjaman` sub-object on the joined
loan amount, not on the loan id: `pinjaman` is `none` whenever
`pembiayaan_jumlah` is NULL or zero — even when `pembiayaan_id` is
non-null, which the statement leaves unconstrained — and is populated
whenever the amount is non-zero; the `tabungan` sub-object is keyed on
`tabungan_id` being non-null (well-formed ids being non-empty). -/
theorem pinjaman_keyed_on_amount_tabungan_on_id (item : TransactionRPCResult) :
    (item.pembiayaan_jumlah = none → (transformTransaction item).pinjaman = none) ∧
    (item.pembiayaan_jumlah = some 0 → (transformTransaction item).pinjaman = none) ∧
    (∀ j, item.pembiayaan_jumlah = some j → j ≠ 0 →
      (transformTransaction item).pinjaman =
        some { id := item.pembiayaan_id
               jumlah := j
               sisa_pembayaran := item.pembiayaan_sisa
               jenis_pinjaman := item.pembiayaan_jenis }) ∧
    (item.tabungan_id = none → (transformTransaction item).tabungan = none) ∧
    (∀ s, item.tabungan_id = some s → s ≠ "" →
      (transformTransaction item).tabungan ≠ none) := by
  refine ⟨?_, ?_, ?_, ?_, ?_⟩
  · intro h
    simp [transformTransaction, h]
  · intro h
    simp [transformTransaction, h]
  · intro j hj hne
    simp [transformTransaction, hj, hne]
  · intro h
    simp [transformTransaction, h]
  · intro s hs hne
    simp [transformTransaction, hs, hne]

def w10item : TransactionRPCResult :=
  { id := "t5"
    anggota_id := "a3"
    tipe_transaksi := "masuk"
    source_type := some "pembiayaan"
    deskripsi := none
    jumlah := 100
    sebelum := 0
    sesudah := 100
    pembiayaan_id := some "pb1"
    tabungan_id := some "tb3"
    created_at := "2024-03-03"
    updated_at := "2024-03-03"
    anggota_nama := some "Sari"
    anggota_nomor_rekening := some "002"
    tabungan_saldo := some 100
    tabungan_jenis_id := some "j2"
    tabungan_jenis_nama := some "Tabungan Pokok"
    tabungan_jenis_kode := some "TP"
    pembiayaan_jumlah := some 0
    pembiayaan_sisa := some 0
    pembiayaan_jenis := some "murabahah"}

/-- Witness for claim C10: a financing-linked row with non-null
`pembiayaan_id` but zero joined loan amount serializes with
`pinjaman = none`, while its `tabungan` sub-object is populated. -/
theorem pinjaman_keyed_on_amount_tabungan_on_id_witness :
    (transformTransaction w10item).pinjaman = none ∧
    (transformTransaction w10item).tabungan ≠ none :=
  ⟨(pinjaman_keyed_on_amount_tabungan_on_id w10item).2.1 rfl,
   (pinjaman_keyed_on_amount_tabungan_on_id w10item).2.2.2.2 "tb3" rfl (by decide)⟩

lemma POST_call_args (body : PostBody) (store : AddTxArgs → RpcOutcome)
    (args : AddTxArgs) (h : (POST body store).snd = some args) :
    args = mkArgs body := by
  simp only [POST] at h
  split at h
  · simp at h
  · split at h
    · simp at h
    · split at h
      · simp at h
        exact h.symm
      · split at h
        · simp at h
          exact h.symm
        · simp at h
          exact h.symm

/-- Claim C5: whenever the POST handler issues a store call, the loan
reference it passes (`p_pembiayaan_id`) is the body's `pembiayaan_id` when
that is present (truthy), otherwise the legacy `pinjaman_id` when present,
otherwise null; in particular `pembiayaan_id = X` with no `pinjaman_id`
records `X`, and `pembiayaan_id` wins when both are present. -/
theorem post_loan_ref_aliasing (body : PostBody) (store : AddTxArgs → RpcOutcome)
    (args : AddTxArgs) (h : (POST body store).snd = some args) :
    args.p_pembiayaan_id = resolveLoanRef body.pembiayaan_id body.pinjaman_id ∧
    (∀ x, body.pembiayaan_id = some (JSVal.str x) → x ≠ "" →
      args.p_pembiayaan_id = some (JSVal.str x)) ∧
    (truthy body.pembiayaan_id = true → args.p_pembiayaan_id = body.pembiayaan_id) ∧
    (truthy body.pembiayaan_id = false → truthy body.pinjaman_id = true →
      args.p_pembiayaan_id = body.pinjaman_id) ∧
    (truthy body.pembiayaan_id = false → truthy body.pinjaman_id = false →
      args.p_pembiayaan_id = some JSVal.null) := by
  have ha : args = mkArgs body := POST_call_args body store args h
  subst ha
  refine ⟨rfl, ?_, ?_, ?_, ?_⟩
  · intro x hx hne
    simp [mkArgs, resolveLoanRef, hx, truthy, hne]
  · intro ht
    simp [mkArgs, resolveLoanRef, ht]
  · intro hf ht
    simp [mkArgs, resolveLoanRef, hf, ht]
  · intro hf1 hf2
    simp [mkArgs, resolveLoanRef, hf1, hf2]

def w5body : PostBody :=
  { anggota_id := some (JSVal.str "A5")
    tipe_transaksi := some (JSVal.str "masuk")
    source_type := some (JSVal.str "pembiayaan")
    jumlah := some (JSVal.num 1000)
    deskripsi := none
    jenis_tabungan_id := none
    pembiayaan_id := some (JSVal.str "PX")
    pinjaman_id := none }

def w5store : AddTxArgs → RpcOutcome :=
  fun _ => RpcOutcome.rpcData ⟨true, some "t9", none⟩

/-- Witness for claim C5: a request carrying `pembiayaan_id = "PX"` and no
`pinjaman_id` records `"PX"` as the loan reference of the store call. -/
theorem post_loan_ref_aliasing_witness :
    (mkArgs w5body).p_pembiayaan_id = some (JSVal.str "PX") :=
  (post_loan_ref_aliasing w5body w5store (mkArgs w5body) rfl).2.1 "PX" rfl
    (by decide)

def c2xbody : PostBody :=
  { anggota_id := some (JSVal.str "A1")
    tipe_transaksi := some (JSVal.str "keluar")
    source_type := some (JSVal.str "pembiayaan")
    jumlah := some (JSVal.num 5000)
    deskripsi := none
    jenis_tabungan_id := none
    pembiayaan_id := some (JSVal.str "PB1")
    pinjaman_id := none }

def c2xstore : AddTxArgs → RpcOutcome :=
  fun _ => RpcOutcome.rpcData ⟨false, none, some "Saldo tidak mencukupi"⟩

/-- Claim C2 counterexample: a create request that passes validation and
for which the store reports a structured unsuccessful outcome
(`success = false`) is answered with status 400 carrying the store error,
not with status 500 as the claim states. -/
theorem post_structured_failure_status_not_500 :
    (POST c2xbody c2xstore).fst.status = 400 ∧
    (POST c2xbody c2xstore).fst.status ≠ 500 ∧
    (POST c2xbody c2xstore).fst.body = RespBody.errObj (some "Saldo tidak mencukupi") := by
  refine ⟨rfl, by decide, rfl⟩

/-- Claim C2 (amended): for a create request that passes validation, a
store call error yields status 500 whose message carries the store error;
a structured unsuccessful outcome yields status 400 carrying the
store-provided error message; a successful outcome yields status 200 with
body `{success, message, data.id}` where the id is the store-returned
transaction identifier. -/
theorem post_store_outcome_statuses (body : PostBody) (store : AddTxArgs → RpcOutcome)
    (hreq : ∀ g ∈ requiredFields, truthy (getField body g) = true)
    (hsav : body.source_type = some (JSVal.str "tabungan") →
      truthy body.jenis_tabungan_id = true) :
    (POST body store).snd = some (mkArgs body) ∧
    (∀ msg, store (mkArgs body) = RpcOutcome.rpcError msg →
      (POST body store).fst =
        ⟨500, RespBody.errObj (some ("Failed to create transaction: " ++ msg))⟩) ∧
    (∀ d, store (mkArgs body) = RpcOutcome.rpcData d → d.success = false →
      (POST body store).fst = ⟨400, RespBody.errObj d.error⟩) ∧
    (∀ d, store (mkArgs body) = RpcOutcome.rpcData d → d.success = true →
      (POST body store).fst =
        ⟨200, RespBody.created "Transaction created successfully" d.transaction_id⟩) := by
  have hfm := firstMissing_eq_none body hreq
  have hcond : ¬(body.source_type = some (JSVal.str "tabungan") ∧
      truthy body.jenis_tabungan_id = false) := by
    rintro ⟨hs, hf⟩
    rw [hsav hs] at hf
    exact Bool.noConfusion hf
  rw [POST_valid_eq body store hfm hcond]
  refine ⟨?_, ?_, ?_, ?_⟩
  · cases hst : store (mkArgs body) with
    | rpcError msg => rfl
    | rpcData d => cases hd : d.success <;> simp [hd]
  · intro msg hst
    rw [hst]
  · intro d hst hsd
    rw [hst]
    simp [hsd]
  · intro d hst hsd
    rw [hst]
    simp [hsd]

def w2body : PostBody :=
  { anggota_id := some (JSVal.str "A9")
    tipe_transaksi := some (JSVal.str "keluar")
    source_type := some (JSVal.str "pembiayaan")
    jumlah := some (JSVal.num 750)
    deskripsi := none
    jenis_tabungan_id := none
    pembiayaan_id := some (JSVal.str "PB9")
    pinjaman_id := none }

def w2store : AddTxArgs → RpcOutcome :=
  fun _ => RpcOutcome.rpcError "timeout"

/-- Witness for the amended claim C2: a concrete validated request whose
store call errors is answered with status 500 carrying the store message. -/
theorem post_store_outcome_statuses_witness :
    (POST w2body w2store).fst =
      ⟨500, RespBody.errObj (some ("Failed to create transaction: " ++ "timeout"))⟩ :=
  (post_store_outcome_statuses w2body w2store (by decide)
    (fun h => absurd h (by decide))).2.1 "timeout" rfl

end AdminDashboard
